import Mathlib

/-! Allocator (src/allocator/allocator.cpp).

A shallow embedding of the top-level `Allocator` class of the storage engine:
the diagnostic archive operations `GetMeta` / `SetMeta`, the lifecycle
operations `Init` / `Dispose`, the volume-unmount notification and the
"flush all user data" maintenance command.

The collaborators of the class (metadata-file backend, context manager, block
manager, write-buffer stripe manager, allocator service) are not part of the
translated sources.  Their behaviour is a parameter of the model, and every
call the allocator issues to them is recorded in a call log, so that statements
about "which calls, in which order, with which arguments" can be made.
-/

namespace pos

/-! ## Raw memory -/

/-- One `char` of raw memory. -/
abbrev Byte := Fin 256

/-- A `char*`: the byte found at each offset from the pointed-to address. -/
abbrev Mem := Nat → Byte

/-- The `len` bytes found at a pointer. -/
def readBytes (p : Mem) (len : Nat) : List Byte :=
  (List.range len).map p

/-- Copy of `len` bytes from `src` to the start of the heap buffer `dst`, as `memcpy(dst, src, len)`. -/
def memcpy (dst : List Byte) (src : Mem) (len : Nat) : List Byte :=
  readBytes src len ++ dst.drop len

/-- Memory at `p` after a transfer stored the bytes `data` into the window of `len` bytes at `p`;
bytes the transfer did not deliver keep their old value. -/
def storeBytes (p : Mem) (len : Nat) (data : List Byte) : Mem :=
  fun i => if i < len then data.getD i (p i) else p i

/-- Conversion of a `size_t` value to `uint32_t`. -/
def toUint32 (x : Nat) : Nat := x % 2 ^ 32

/-- Conversion of an `int` argument to a `uint32_t` parameter. -/
def intToUint32 (x : Int) : Nat := (x % 2 ^ 32).toNat

/-- The object representation of a `uint32_t` (little endian, as on the supported targets). -/
def memOfUint32 (v : Nat) : Mem :=
  fun i => if i < 4 then Fin.ofNat (v / 256 ^ i) else 0

/-- The `uint32_t` whose object representation is found at `p`. -/
def uint32OfMem (p : Mem) : Nat :=
  (p 0).val + 256 * (p 1).val + 65536 * (p 2).val + 16777216 * (p 3).val

/-! ## Constants whose declarations are outside the translated sources -/

/-- The event ids, context-file owners and section numbers used by `allocator.cpp`.
Their declarations (`pos_event_id.h`, the context headers) are not among the sources, so they
are parameters of the model. -/
structure Consts where
  EID_ALLOCATOR_START : Int
  EID_ALLOCATOR_META_ARCHIVE_STORE : Int
  EID_ALLOCATOR_META_ARCHIVE_LOAD : Int
  EID_ARRAY_UNMOUNTING : Int
  SEGMENT_CTX : Int
  ALLOCATOR_CTX : Int
  SC_SEGMENT_VALID_COUNT : Int
  SC_SEGMENT_OCCUPIED_STRIPE : Int

/-- Modelled from the spec: the declaration of `enum WBTAllocatorMetaType` is not among the
sources.  A value of the enum is its integer; the enumerators are numbered in the order in which
the archive types are listed (bitmap summaries, active stripe tail, current SSD LSID, segment
state, then the two segment tables), with `WBT_NUM_ALLOCATOR_META` last. -/
abbrev WBTAllocatorMetaType := Nat

def WBT_WBLSID_BITMAP : WBTAllocatorMetaType := 0
def WBT_SEGMENT_BITMAP : WBTAllocatorMetaType := 1
def WBT_CURRENT_SSD_LSID : WBTAllocatorMetaType := 3
def WBT_SEGMENT_STATE : WBTAllocatorMetaType := 4
def WBT_SEGMENT_VALID_COUNT : WBTAllocatorMetaType := 5
def WBT_SEGMENT_OCCUPIED_STRIPE : WBTAllocatorMetaType := 6
def WBT_NUM_ALLOCATOR_META : WBTAllocatorMetaType := 7

/-! ## The metadata-file backend -/

inductive MetaFsIoOpcode where
  | Write
  | Read
deriving DecidableEq

/-- The file object built by `new MockFileIntf(fname, arrayName)`. -/
structure MockFileIntf where
  fname : String
  arrayName : String
deriving DecidableEq

/-- Outcome of one transfer: the returned status, the backend state, and the bytes left in the
caller's buffer window. -/
structure IoResult (F : Type) where
  ret : Int
  fs : F
  buffer : List Byte

/-- The metadata-file interface (`Create`, `Open`, `Close`, `IssueIO`, `AppendIO`).  Its
implementation is not among the sources: it is a parameter, acting on a backend state `F`.
A transfer receives opcode, file offset, length and the `length` bytes of the caller's buffer. -/
structure MetaFileIntf (F : Type) where
  Create : F → MockFileIntf → Nat → Int × F
  Open : F → MockFileIntf → F
  Close : F → MockFileIntf → F
  IssueIO : F → MockFileIntf → MetaFsIoOpcode → Nat → Nat → List Byte → IoResult F
  AppendIO : F → MockFileIntf → MetaFsIoOpcode → Nat → Nat → List Byte → IoResult F

/-- A call issued by the archive operations, with its arguments and the status it returned. -/
inductive FileCall where
  | Create (file : MockFileIntf) (size : Nat) (ret : Int)
  | Open (file : MockFileIntf)
  | IssueIO (file : MockFileIntf) (op : MetaFsIoOpcode) (fileOffset length : Nat)
      (buffer : List Byte) (ret : Int)
  | AppendIO (file : MockFileIntf) (op : MetaFsIoOpcode) (offset length : Nat)
      (buffer : List Byte) (ret : Int)
  | Close (file : MockFileIntf)
  | TraceError (eid : Int)
deriving DecidableEq

/-- One data transfer seen by the backend. -/
structure Transfer where
  offset : Nat
  length : Nat
  payload : List Byte
  ret : Int
deriving DecidableEq

/-- The transfers with opcode `op` among the calls of a log, in order. -/
def transfers (op : MetaFsIoOpcode) : List FileCall → List Transfer
  | [] => []
  | FileCall.IssueIO _ o off len buf r :: rest =>
      if o = op then ⟨off, len, buf, r⟩ :: transfers op rest else transfers op rest
  | FileCall.AppendIO _ o off len buf r :: rest =>
      if o = op then ⟨off, len, buf, r⟩ :: transfers op rest else transfers op rest
  | _ :: rest => transfers op rest

/-- The writes issued to the backend. -/
def writes (log : List FileCall) : List Transfer := transfers MetaFsIoOpcode.Write log

/-- The reads issued to the backend. -/
def reads (log : List FileCall) : List Transfer := transfers MetaFsIoOpcode.Read log

/-! ## Contexts -/

/-- Modelled from the spec: `WbStripeCtx` is not among the sources.  The spec names the allocated
and the total write-buffer stripe count and describes no setter; the counts are plain values
here, `GetAllocatedWbStripeCount` / `GetNumTotalWbStripe` report them, and
`SetAllocatedWbStripeCount` is taken as the store its name states.  What the real setter does
with a value above the total is not known from the sources, and nothing below states it. -/
structure WbStripeCtx where
  allocatedWbStripeCount : Nat
  numTotalWbStripe : Nat
deriving DecidableEq

def WbStripeCtx.SetAllocatedWbStripeCount (c : WbStripeCtx) (count : Nat) : WbStripeCtx :=
  { c with allocatedWbStripeCount := count }

def WbStripeCtx.GetAllocatedWbStripeCount (c : WbStripeCtx) : Nat := c.allocatedWbStripeCount

def WbStripeCtx.GetNumTotalWbStripe (c : WbStripeCtx) : Nat := c.numTotalWbStripe

/-- Modelled from the spec: `AllocatorCtx` is not among the sources.  The spec names the count
of allocated segments and describes no setter; the counts are plain values here and
`SetAllocatedSegmentCount` is taken as the store its name states. -/
structure AllocatorCtx where
  allocatedSegmentCount : Nat
  totalSegmentsCount : Nat
deriving DecidableEq

def AllocatorCtx.SetAllocatedSegmentCount (c : AllocatorCtx) (count : Nat) : AllocatorCtx :=
  { c with allocatedSegmentCount := count }

def AllocatorCtx.GetAllocatedSegmentCount (c : AllocatorCtx) : Nat := c.allocatedSegmentCount

/-- The part of `ContextManager` the allocator reads and writes directly: the raw context
sections (memory and size per owner and section number), the typed contexts, and whether the
context lock is held. -/
structure ContextManager where
  sectionAddr : Int → Int → Mem
  sectionSize : Int → Int → Nat
  wbStripeCtx : WbStripeCtx
  allocatorCtx : AllocatorCtx
  ctxLock : Bool

def ContextManager.GetContextSectionAddr (c : ContextManager) (owner section_ : Int) : Mem :=
  c.sectionAddr owner section_

def ContextManager.GetContextSectionSize (c : ContextManager) (owner section_ : Int) : Nat :=
  c.sectionSize owner section_

def ContextManager.GetWbStripeCtx (c : ContextManager) : WbStripeCtx := c.wbStripeCtx

def ContextManager.GetAllocatorCtx (c : ContextManager) : AllocatorCtx := c.allocatorCtx

/-- The context manager after a transfer stored `data` into the `len`-byte window at the start of
section `(owner, section_)`. -/
def ContextManager.storeSection (c : ContextManager) (owner section_ : Int) (len : Nat)
    (data : List Byte) : ContextManager :=
  { c with sectionAddr := fun o s =>
      if o = owner ∧ s = section_ then storeBytes (c.sectionAddr o s) len data
      else c.sectionAddr o s }

/-! ## The allocator -/

/-- State of an `Allocator`.  `sub` is the state of the submodules that the sources do not
show (stripes, maps, registry); `blkAllocProhibited` is the block manager's suspension flag. -/
structure Allocator (W : Type) where
  isInitialized : Bool
  arrayName : String
  numUserAreaSegments : Nat
  contextManager : ContextManager
  blkAllocProhibited : Bool
  sub : W

/-- Outcome of an archive operation. -/
structure MetaResult (W F : Type) where
  ret : Int
  alloc : Allocator W
  fs : F
  log : List FileCall

/-- Translation of `Allocator::GetMeta(type, fname)`. -/
def Allocator.GetMeta {W F : Type} (K : Consts) (B : MetaFileIntf F) (a : Allocator W) (fs : F)
    (type : WBTAllocatorMetaType) (fname : String) : MetaResult W F :=
  let dumpFile : MockFileIntf := ⟨fname, a.arrayName⟩
  let created := B.Create fs dumpFile 0
  if created.1 < 0 then
    ⟨-K.EID_ALLOCATOR_START, a, created.2,
      [FileCall.Create dumpFile 0 created.1, FileCall.TraceError K.EID_ALLOCATOR_START]⟩
  else
    let opened := B.Open created.2 dumpFile
    let curOffset : Nat := 0
    if WBT_SEGMENT_VALID_COUNT = type then
      let len := toUint32 (4 * a.numUserAreaSegments)
      let src := a.contextManager.GetContextSectionAddr K.SEGMENT_CTX K.SC_SEGMENT_VALID_COUNT
      let buf := memcpy (List.replicate len 0) src len
      let w := B.IssueIO opened dumpFile MetaFsIoOpcode.Write 0 len buf
      ⟨if w.ret < 0 then -K.EID_ALLOCATOR_META_ARCHIVE_STORE else w.ret, a, B.Close w.fs dumpFile,
        [FileCall.Create dumpFile 0 created.1, FileCall.Open dumpFile,
          FileCall.IssueIO dumpFile MetaFsIoOpcode.Write 0 len buf w.ret]
        ++ (if w.ret < 0 then [FileCall.TraceError K.EID_ALLOCATOR_META_ARCHIVE_STORE] else [])
        ++ [FileCall.Close dumpFile]⟩
    else if WBT_SEGMENT_OCCUPIED_STRIPE = type then
      let len := toUint32 (4 * a.numUserAreaSegments)
      let src := a.contextManager.GetContextSectionAddr K.SEGMENT_CTX K.SC_SEGMENT_OCCUPIED_STRIPE
      let buf := memcpy (List.replicate len 0) src len
      let w := B.IssueIO opened dumpFile MetaFsIoOpcode.Write 0 len buf
      ⟨if w.ret < 0 then -K.EID_ALLOCATOR_META_ARCHIVE_STORE else w.ret, a, B.Close w.fs dumpFile,
        [FileCall.Create dumpFile 0 created.1, FileCall.Open dumpFile,
          FileCall.IssueIO dumpFile MetaFsIoOpcode.Write 0 len buf w.ret]
        ++ (if w.ret < 0 then [FileCall.TraceError K.EID_ALLOCATOR_META_ARCHIVE_STORE] else [])
        ++ [FileCall.Close dumpFile]⟩
    else
      -- the status set for a wrong type is overwritten by the status of the write below
      let size := a.contextManager.GetContextSectionSize K.ALLOCATOR_CTX ((type : Int) + 1)
      let src := a.contextManager.GetContextSectionAddr K.ALLOCATOR_CTX ((type : Int) + 1)
      let w := B.AppendIO opened dumpFile MetaFsIoOpcode.Write curOffset size (readBytes src size)
      ⟨if w.ret < 0 then -K.EID_ALLOCATOR_META_ARCHIVE_STORE else w.ret, a, B.Close w.fs dumpFile,
        [FileCall.Create dumpFile 0 created.1, FileCall.Open dumpFile]
        ++ (if WBT_NUM_ALLOCATOR_META ≤ type
            then [FileCall.TraceError K.EID_ALLOCATOR_META_ARCHIVE_STORE] else [])
        ++ [FileCall.AppendIO dumpFile MetaFsIoOpcode.Write curOffset size (readBytes src size) w.ret]
        ++ (if w.ret < 0 then [FileCall.TraceError K.EID_ALLOCATOR_META_ARCHIVE_STORE] else [])
        ++ [FileCall.Close dumpFile]⟩

/-- Translation of `Allocator::SetMeta(type, fname)`. -/
def Allocator.SetMeta {W F : Type} (K : Consts) (B : MetaFileIntf F) (a : Allocator W) (fs : F)
    (type : WBTAllocatorMetaType) (fname : String) : MetaResult W F :=
  let fileProvided : MockFileIntf := ⟨fname, a.arrayName⟩
  let opened := B.Open fs fileProvided
  let curOffset : Nat := 0
  if WBT_SEGMENT_VALID_COUNT = type then
    let len := toUint32 (4 * a.numUserAreaSegments)
    let pBuf := a.contextManager.GetContextSectionAddr K.SEGMENT_CTX K.SC_SEGMENT_VALID_COUNT
    let r := B.AppendIO opened fileProvided MetaFsIoOpcode.Read curOffset len (readBytes pBuf len)
    ⟨if r.ret < 0 then -K.EID_ALLOCATOR_META_ARCHIVE_LOAD else r.ret,
      { a with contextManager :=
          a.contextManager.storeSection K.SEGMENT_CTX K.SC_SEGMENT_VALID_COUNT len r.buffer },
      B.Close r.fs fileProvided,
      [FileCall.Open fileProvided,
        FileCall.AppendIO fileProvided MetaFsIoOpcode.Read curOffset len (readBytes pBuf len) r.ret]
      ++ (if r.ret < 0 then [FileCall.TraceError K.EID_ALLOCATOR_META_ARCHIVE_LOAD] else [])
      ++ [FileCall.Close fileProvided]⟩
  else if WBT_SEGMENT_OCCUPIED_STRIPE = type then
    let len := toUint32 (4 * a.numUserAreaSegments)
    let pBuf := a.contextManager.GetContextSectionAddr K.SEGMENT_CTX K.SC_SEGMENT_OCCUPIED_STRIPE
    let r := B.AppendIO opened fileProvided MetaFsIoOpcode.Read curOffset len (readBytes pBuf len)
    ⟨if r.ret < 0 then -K.EID_ALLOCATOR_META_ARCHIVE_LOAD else r.ret,
      { a with contextManager :=
          a.contextManager.storeSection K.SEGMENT_CTX K.SC_SEGMENT_OCCUPIED_STRIPE len r.buffer },
      B.Close r.fs fileProvided,
      [FileCall.Open fileProvided,
        FileCall.AppendIO fileProvided MetaFsIoOpcode.Read curOffset len (readBytes pBuf len) r.ret]
      ++ (if r.ret < 0 then [FileCall.TraceError K.EID_ALLOCATOR_META_ARCHIVE_LOAD] else [])
      ++ [FileCall.Close fileProvided]⟩
  else if WBT_WBLSID_BITMAP = type then
    let numBitsSet : Mem := memOfUint32 0
    let r := B.AppendIO opened fileProvided MetaFsIoOpcode.Read curOffset 4 (readBytes numBitsSet 4)
    let numBitsSet := storeBytes numBitsSet 4 r.buffer
    ⟨r.ret,
      { a with contextManager :=
          { a.contextManager with wbStripeCtx :=
              a.contextManager.GetWbStripeCtx.SetAllocatedWbStripeCount (uint32OfMem numBitsSet) } },
      B.Close r.fs fileProvided,
      [FileCall.Open fileProvided,
        FileCall.AppendIO fileProvided MetaFsIoOpcode.Read curOffset 4
          (readBytes (memOfUint32 0) 4) r.ret,
        FileCall.Close fileProvided]⟩
  else if WBT_SEGMENT_BITMAP = type then
    let numBitsSet : Mem := memOfUint32 0
    let r := B.AppendIO opened fileProvided MetaFsIoOpcode.Read curOffset 4 (readBytes numBitsSet 4)
    let numBitsSet := storeBytes numBitsSet 4 r.buffer
    ⟨r.ret,
      { a with contextManager :=
          { a.contextManager with allocatorCtx :=
              a.contextManager.GetAllocatorCtx.SetAllocatedSegmentCount (uint32OfMem numBitsSet) } },
      B.Close r.fs fileProvided,
      [FileCall.Open fileProvided,
        FileCall.AppendIO fileProvided MetaFsIoOpcode.Read curOffset 4
          (readBytes (memOfUint32 0) 4) r.ret,
        FileCall.Close fileProvided]⟩
  else
    -- ACTIVE_STRIPE_TAIL, CURRENT_SSD_LSID, SEGMENT_STATE: do nothing
    ⟨0, a, B.Close opened fileProvided, [FileCall.Open fileProvided, FileCall.Close fileProvided]⟩

/-! ## Submodules and lifecycle -/

/-- A `Stripe*`. -/
abbrev StripePtr := Nat

/-- A `StripeId`. -/
abbrev StripeId := Nat

/-- The interfaces the allocator registers to the allocator service. -/
inductive AllocatorInterface where
  | IBlockAllocator
  | IWBStripeAllocator
  | IAllocatorWbt
  | IContextManager
  | IContextReplayer
deriving DecidableEq

/-- Outcome of a stripe-manager operation that receives the two vectors by reference. -/
structure StripeLists (W : Type) where
  sub : W
  stripesToFlush : List StripePtr
  vsidToCheckFlushDone : List StripeId

/-- The submodules behind the allocator (address info, context manager, block manager,
write-buffer stripe manager, allocator service).  Their implementations are not among the
sources: each operation is a parameter acting on the submodule state `W`; operations that report
a status return it next to the new state. -/
structure Submodules (W : Type) where
  AddrInfoInit : W → String → W
  ContextManagerInit : W → Int × W
  BlockManagerInit : W → W
  WBStripeManagerInit : W → W
  GetContextReplayer : W → W
  RegisterAllocator : W → String → AllocatorInterface → W
  UnregisterAllocator : W → String → W
  FlushAllActiveStripes : W → W
  FlushContextsSync : W → Int × W
  ContextManagerClose : W → W
  PickActiveStripe : W → Nat → List StripePtr → List StripeId → StripeLists W
  FinalizeWriteIO : W → List StripePtr → List StripeId → StripeLists W
  CheckAllActiveStripes : W → List StripePtr → List StripeId → Int × StripeLists W
  TurnOffBlkAllocation : W → W
  TurnOnBlkAllocation : W → W

/-- A call issued by the lifecycle operations, with its arguments. -/
inductive SubCall where
  | TraceInfo (eid : Int)
  | GetName
  | AddrInfoInit (arrayName : String)
  | ContextManagerInit
  | BlockManagerInit
  | WBStripeManagerInit
  | GetContextReplayer
  | RegisterAllocator (arrayName : String) (iface : AllocatorInterface)
  | UnregisterAllocator (arrayName : String)
  | FlushAllActiveStripes
  | FlushContextsSync
  | ContextManagerClose
  | GetCtxLock
  | Lock
  | Unlock
  | PickActiveStripe (volumeId : Nat) (stripesToFlush : List StripePtr)
      (vsidToCheckFlushDone : List StripeId)
  | FinalizeWriteIO (stripesToFlush : List StripePtr) (vsidToCheckFlushDone : List StripeId)
  | CheckAllActiveStripes (stripesToFlush : List StripePtr)
      (vsidToCheckFlushDone : List StripeId)
  | TurnOffBlkAllocation
  | TurnOnBlkAllocation
deriving DecidableEq

/-- A logged call, with the state of the context lock and of block allocation at the moment the
call is issued. -/
structure Logged where
  ctxLockHeld : Bool
  blkAllocProhibited : Bool
  call : SubCall
deriving DecidableEq

/-- The log entry for a call issued in state `a`. -/
def Allocator.logged {W : Type} (a : Allocator W) (c : SubCall) : Logged :=
  ⟨a.contextManager.ctxLock, a.blkAllocProhibited, c⟩

/-- The allocator with its submodule state replaced. -/
def Allocator.withSub {W : Type} (a : Allocator W) (s : W) : Allocator W :=
  { a with sub := s }

/-- Construction and destruction of `std::unique_lock<std::mutex> lock(GetCtxLock())`. -/
def Allocator.setCtxLock {W : Type} (a : Allocator W) (held : Bool) : Allocator W :=
  { a with contextManager := { a.contextManager with ctxLock := held } }

/-- Modelled from the spec: `BlockManager` is not among the sources.  `TurnOffBlkAllocation`
suspends new grants and `TurnOnBlkAllocation` resumes them; the flag records the suspension, next
to whatever else the call does to the submodule state. -/
def Allocator.setBlkAlloc {W : Type} (a : Allocator W) (s : W) (prohibited : Bool) : Allocator W :=
  { a with sub := s, blkAllocProhibited := prohibited }

/-- Outcome of a lifecycle operation. -/
structure LifeResult (W α : Type) where
  ret : α
  alloc : Allocator W
  log : List Logged

/-- Translation of `Allocator::_RegisterToAllocatorService`. -/
def Allocator._RegisterToAllocatorService {W : Type} (E : Submodules W) (a : Allocator W) :
    Allocator W × List Logged :=
  let arrayName := a.arrayName
  let s1 := E.RegisterAllocator a.sub arrayName AllocatorInterface.IBlockAllocator
  let s2 := E.RegisterAllocator s1 arrayName AllocatorInterface.IWBStripeAllocator
  let s3 := E.RegisterAllocator s2 arrayName AllocatorInterface.IAllocatorWbt
  let s4 := E.RegisterAllocator s3 arrayName AllocatorInterface.IContextManager
  let s5 := E.GetContextReplayer s4
  let s6 := E.RegisterAllocator s5 arrayName AllocatorInterface.IContextReplayer
  (a.withSub s6,
    [a.logged SubCall.GetName,
      a.logged (SubCall.RegisterAllocator arrayName AllocatorInterface.IBlockAllocator),
      a.logged (SubCall.RegisterAllocator arrayName AllocatorInterface.IWBStripeAllocator),
      a.logged (SubCall.RegisterAllocator arrayName AllocatorInterface.IAllocatorWbt),
      a.logged (SubCall.RegisterAllocator arrayName AllocatorInterface.IContextManager),
      a.logged SubCall.GetContextReplayer,
      a.logged (SubCall.RegisterAllocator arrayName AllocatorInterface.IContextReplayer)])

/-- Translation of `Allocator::_UnregisterFromAllocatorService`. -/
def Allocator._UnregisterFromAllocatorService {W : Type} (E : Submodules W) (a : Allocator W) :
    Allocator W × List Logged :=
  let arrayName := a.arrayName
  (a.withSub (E.UnregisterAllocator a.sub arrayName),
    [a.logged SubCall.GetName, a.logged (SubCall.UnregisterAllocator arrayName)])

/-- Translation of `Allocator::Init`.  The statuses of the submodule initialisations are not
used; the function returns 0. -/
def Allocator.Init {W : Type} (E : Submodules W) (a : Allocator W) : LifeResult W Int :=
  if a.isInitialized = false then
    let s1 := E.AddrInfoInit a.sub a.arrayName
    let s2 := (E.ContextManagerInit s1).2
    let s3 := E.BlockManagerInit s2
    let s4 := E.WBStripeManagerInit s3
    let reg := Allocator._RegisterToAllocatorService E (a.withSub s4)
    ⟨0, { reg.1 with isInitialized := true },
      [a.logged SubCall.GetName, a.logged (SubCall.AddrInfoInit a.arrayName),
        a.logged SubCall.ContextManagerInit, a.logged SubCall.BlockManagerInit,
        a.logged SubCall.WBStripeManagerInit] ++ reg.2⟩
  else
    ⟨0, a, []⟩

/-- Translation of `Allocator::Dispose`.  The function returns no value; the status of
`FlushContextsSync` is not used. -/
def Allocator.Dispose {W : Type} (K : Consts) (E : Submodules W) (a : Allocator W) :
    LifeResult W Unit :=
  if a.isInitialized = true then
    let eventId := K.EID_ARRAY_UNMOUNTING
    let s1 := E.FlushAllActiveStripes a.sub
    let s2 := (E.FlushContextsSync s1).2
    let s3 := E.ContextManagerClose s2
    let unreg := Allocator._UnregisterFromAllocatorService E (a.withSub s3)
    ⟨(), { unreg.1 with isInitialized := false },
      [a.logged (SubCall.TraceInfo eventId), a.logged SubCall.FlushAllActiveStripes,
        a.logged (SubCall.TraceInfo eventId), a.logged SubCall.FlushContextsSync,
        a.logged SubCall.ContextManagerClose] ++ unreg.2⟩
  else
    ⟨(), a, []⟩

/-- Translation of `Allocator::VolumeUnmounted(volName, volID, arrayName)`.  The `int volID` is
converted to the `uint32_t volumeId` parameter of `PickActiveStripe`. -/
def Allocator.VolumeUnmounted {W : Type} (E : Submodules W) (a : Allocator W)
    (_volName : String) (volID : Int) (_arrayName : String) : LifeResult W Bool :=
  let stripesToFlush : List StripePtr := []
  let vsidToCheckFlushDone : List StripeId := []
  let a1 := a.setCtxLock true
  let picked := E.PickActiveStripe a1.sub (intToUint32 volID) stripesToFlush vsidToCheckFlushDone
  let a2 := a1.withSub picked.sub
  let a3 := a2.setCtxLock false
  let done := E.FinalizeWriteIO a3.sub picked.stripesToFlush picked.vsidToCheckFlushDone
  ⟨true, a3.withSub done.sub,
    [a.logged SubCall.GetCtxLock, a.logged SubCall.Lock,
      a1.logged (SubCall.PickActiveStripe (intToUint32 volID) stripesToFlush
        vsidToCheckFlushDone),
      a2.logged SubCall.Unlock,
      a3.logged (SubCall.FinalizeWriteIO picked.stripesToFlush picked.vsidToCheckFlushDone)]⟩

/-- Translation of `Allocator::FlushAllUserdataWBT`.  The status of `CheckAllActiveStripes` is
not used. -/
def Allocator.FlushAllUserdataWBT {W : Type} (E : Submodules W) (a : Allocator W) :
    LifeResult W Unit :=
  let stripesToFlush : List StripePtr := []
  let vsidToCheckFlushDone : List StripeId := []
  let a1 := a.setBlkAlloc (E.TurnOffBlkAllocation a.sub) true
  let checked := (E.CheckAllActiveStripes a1.sub stripesToFlush vsidToCheckFlushDone).2
  let a2 := a1.withSub checked.sub
  let a3 := a2.setBlkAlloc (E.TurnOnBlkAllocation a2.sub) false
  let done := E.FinalizeWriteIO a3.sub checked.stripesToFlush checked.vsidToCheckFlushDone
  ⟨(), a3.withSub done.sub,
    [a.logged SubCall.TurnOffBlkAllocation,
      a1.logged (SubCall.CheckAllActiveStripes stripesToFlush vsidToCheckFlushDone),
      a2.logged SubCall.TurnOnBlkAllocation,
      a3.logged (SubCall.FinalizeWriteIO checked.stripesToFlush checked.vsidToCheckFlushDone)]⟩

/-- Translation of `GetCurrentSsdLsidWbtCommand::Execute`: the dump of the current-SSD-LSID
section of the allocator registered for the array, into the file named by the `output`
argument. -/
def GetCurrentSsdLsidWbtCommand.Execute {W F : Type} (K : Consts) (B : MetaFileIntf F)
    (iAllocatorWbt : Allocator W) (fs : F) (output : String) : MetaResult W F :=
  Allocator.GetMeta K B iAllocatorWbt fs WBT_CURRENT_SSD_LSID output

/-- The submodules `E`, with `ContextManager::Init` reporting the status `r`. -/
def Submodules.withInitStatus {W : Type} (E : Submodules W) (r : Int) : Submodules W :=
  { E with ContextManagerInit := fun w => (r, (E.ContextManagerInit w).2) }

/-- The submodules `E`, with `FlushContextsSync` reporting the status `r`. -/
def Submodules.withFlushStatus {W : Type} (E : Submodules W) (r : Int) : Submodules W :=
  { E with FlushContextsSync := fun w => (r, (E.FlushContextsSync w).2) }

/-- Sample submodules over a counter: every call bumps the counter; stream `v` has the open
stripe `100 + v` with id `v`; the sweep over all streams finds the stripes 100 and 101. -/
def sampleSubmodules : Submodules Nat where
  AddrInfoInit := fun w _ => w + 1
  ContextManagerInit := fun w => (0, w + 1)
  BlockManagerInit := fun w => w + 1
  WBStripeManagerInit := fun w => w + 1
  GetContextReplayer := fun w => w
  RegisterAllocator := fun w _ _ => w + 1
  UnregisterAllocator := fun w _ => w + 1
  FlushAllActiveStripes := fun w => w + 1
  FlushContextsSync := fun w => (0, w + 1)
  ContextManagerClose := fun w => w + 1
  PickActiveStripe := fun w v s ids => ⟨w + 1, s ++ [100 + v], ids ++ [v]⟩
  FinalizeWriteIO := fun w s ids => ⟨w + 1, s, ids⟩
  CheckAllActiveStripes := fun w s ids => (0, ⟨w + 1, s ++ [100, 101], ids ++ [0, 1]⟩)
  TurnOffBlkAllocation := fun w => w + 1
  TurnOnBlkAllocation := fun w => w + 1

/-! ## Backends -/

/-- A backend that stores what is written and returns it on read.  `content fs file` is the
byte the backend holds at each offset of `file`: opening and closing keep it, a write of `buf` at
`off` makes it hold `buf` from `off` on, and a read at `off` delivers the bytes held there. -/
structure StoresAndReturns {F : Type} (B : MetaFileIntf F) (content : F → MockFileIntf → Mem) :
    Prop where
  open_content : ∀ fs f, content (B.Open fs f) f = content fs f
  close_content : ∀ fs f, content (B.Close fs f) f = content fs f
  issue_write : ∀ fs f off len buf i, buf.length = len → i < len →
    content ( B.IssueIO fs f MetaFsIoOpcode.Write off len buf).fs f (off + i) = buf.getD i 0
  append_write : ∀ fs f off len buf i, buf.length = len → i < len →
    content ( B.AppendIO fs f MetaFsIoOpcode.Write off len buf).fs f (off + i) = buf.getD i 0
  issue_read : ∀ fs f off len buf,
    ( B.IssueIO fs f MetaFsIoOpcode.Read off len buf).buffer
      = (List.range len).map (fun i => content fs f (off + i))
  append_read : ∀ fs f off len buf,
    ( B.AppendIO fs f MetaFsIoOpcode.Read off len buf).buffer
      = (List.range len).map (fun i => content fs f (off + i))

/-- No call to the backend fails: every status is non-negative. -/
structure NoIoFailure {F : Type} (B : MetaFileIntf F) : Prop where
  create_ok : ∀ fs f size, 0 ≤ (B.Create fs f size).1
  issue_ok : ∀ fs f op off len buf, 0 ≤ ( B.IssueIO fs f op off len buf).ret
  append_ok : ∀ fs f op off len buf, 0 ≤ ( B.AppendIO fs f op off len buf).ret

/-- An in-memory file store: the bytes of every file, by offset. -/
abbrev RamStore := MockFileIntf → Mem

/-- One transfer on the in-memory store, finishing with status `status`. -/
def ramTransfer (status : Int) (fs : RamStore) (f : MockFileIntf) (op : MetaFsIoOpcode)
    (off len : Nat) (buf : List Byte) : IoResult RamStore :=
  match op with
  | MetaFsIoOpcode.Write =>
      ⟨status, fun g => if g = f then
          fun j => if off ≤ j ∧ j < off + len then buf.getD (j - off) 0 else fs g j
        else fs g, buf⟩
  | MetaFsIoOpcode.Read => ⟨status, fs, (List.range len).map (fun i => fs f (off + i))⟩

/-- A backend over the in-memory store on which every call succeeds with status 0. -/
def ramBackend : MetaFileIntf RamStore where
  Create := fun fs f _ => (0, fun g => if g = f then fun _ => 0 else fs g)
  Open := fun fs _ => fs
  Close := fun fs _ => fs
  IssueIO := ramTransfer 0
  AppendIO := ramTransfer 0

/-- A backend whose transfers finish with status `status`; a failing transfer (negative status)
moves no data. -/
def statusBackend (status : Int) : MetaFileIntf RamStore :=
  { ramBackend with
    IssueIO := fun fs f op off len buf =>
      if status < 0 then ⟨status, fs, buf⟩ else ramTransfer status fs f op off len buf
    AppendIO := fun fs f op off len buf =>
      if status < 0 then ⟨status, fs, buf⟩ else ramTransfer status fs f op off len buf }

/-- The empty in-memory store. -/
def emptyStore : RamStore := fun _ _ => 0

/-- Sample values for the constants. -/
def sampleConsts : Consts where
  EID_ALLOCATOR_START := 3000
  EID_ALLOCATOR_META_ARCHIVE_STORE := 3001
  EID_ALLOCATOR_META_ARCHIVE_LOAD := 3002
  EID_ARRAY_UNMOUNTING := 2500
  SEGMENT_CTX := 0
  ALLOCATOR_CTX := 1
  SC_SEGMENT_VALID_COUNT := 1
  SC_SEGMENT_OCCUPIED_STRIPE := 2

/-- Memory holding the bytes `bs`, followed by zeroes. -/
def memOfList (bs : List Byte) : Mem := fun i => bs.getD i 0

/-- A context manager for an array of two segments: valid-block counts 3 and 5, occupied-stripe
counts 1 and 2, a two-byte active-stripe-tail section, one write-buffer stripe out of four
allocated. -/
def sampleContextManager : ContextManager where
  sectionAddr := fun o s =>
    if o = 0 ∧ s = 1 then memOfList [3, 0, 0, 0, 5, 0, 0, 0]
    else if o = 0 ∧ s = 2 then memOfList [1, 0, 0, 0, 2, 0, 0, 0]
    else if o = 1 ∧ s = 1 then memOfList [9, 0, 0, 0, 0, 0, 0, 0]
    else if o = 1 ∧ s = 3 then memOfList [7, 9]
    else memOfList []
  sectionSize := fun o s =>
    if o = 0 then 8 else if s = 1 then 8 else if s = 3 then 2 else 0
  wbStripeCtx := ⟨1, 4⟩
  allocatorCtx := ⟨1, 2⟩
  ctxLock := false

/-- The sample context manager with every raw section zeroed. -/
def zeroedContextManager : ContextManager :=
  { sampleContextManager with sectionAddr := fun _ _ => memOfList [] }

/-- An initialized allocator of a two-segment array. -/
def sampleAllocator : Allocator Nat where
  isInitialized := true
  arrayName := "POSArray"
  numUserAreaSegments := 2
  contextManager := sampleContextManager
  blkAllocProhibited := false
  sub := 0

/-! ## The instant meta report -/

/-- A `VirtualBlkAddr`: stripe id and offset in the stripe. -/
structure VirtualBlkAddr where
  stripeId : Nat
  offset : Nat
deriving DecidableEq

/-- The getters `GetInstantMetaInfo` reads besides the allocated and total counts.  The contexts
that implement them are not among the sources, so the values they return are parameters.  The
rebuild target set is iterated with an `int` counter; it holds fewer than `2 ^ 31` segments, so
that the counter is exact. -/
structure MetaInfoSource where
  GetActiveStripeTail : Nat → VirtualBlkAddr
  GetCurrentSsdLsid : Nat
  GetSegmentState : Nat → Int
  GetValidBlockCount : Nat → Nat
  NeedRebuildAgain : Bool
  GetTargetSegmentCnt : Nat
  RebuildTargetSegments : List Nat
  targetsFitInt : RebuildTargetSegments.length < 2 ^ 31

def AllocatorCtx.GetTotalSegmentsCount (c : AllocatorCtx) : Nat := c.totalSegmentsCount

/-- One group of values sent to the output stream of `GetInstantMetaInfo`. -/
inductive ReportItem where
  | Title (text : String)
  | SetTotal (set total : Nat)
  | ActiveStripeTail (idx stripeId offset : Nat)
  | EndLine
  | CurrentSsdLsid (lsid : Nat)
  | Segment (segmentId : Nat) (state : Int) (validBlockCnt : Nat)
  | NeedRebuildCont (again : Bool)
  | TargetSegmentCount (count : Nat)
  | TargetSegment (segmentId : Nat)
deriving DecidableEq

/-- The largest value of an `int`. -/
def INT_MAX : Nat := 2147483647

/-- Outcome of a run on machine integers: a result, or an addition on `int` whose result does not
fit an `int` (undefined behaviour: nothing is guaranteed about the run), or fuel that ran out. -/
inductive Run (α : Type) where
  | done (value : α)
  | intOverflow
  | outOfFuel
deriving DecidableEq

/-- The inner loop `for (int idx = volumeId; idx < ACTIVE_STRIPE_TAIL_ARRAYLEN;
idx += MAX_VOLUME_COUNT)` of `GetInstantMetaInfo`, started at `idx`: the indices passed to
`GetActiveStripeTail`, in order.  After each visit `idx += MAX_VOLUME_COUNT` is computed on
`int`; when the sum exceeds `INT_MAX` the run overflows.  `fuel` bounds the number of
iterations. -/
def activeStripeTailRow (MAX_VOLUME_COUNT ACTIVE_STRIPE_TAIL_ARRAYLEN : Nat) :
    Nat → Nat → Run (List Nat)
  | 0, idx => if idx < ACTIVE_STRIPE_TAIL_ARRAYLEN then Run.outOfFuel else Run.done []
  | fuel + 1, idx =>
      if idx < ACTIVE_STRIPE_TAIL_ARRAYLEN then
        if INT_MAX < idx + MAX_VOLUME_COUNT then Run.intOverflow
        else
          match activeStripeTailRow MAX_VOLUME_COUNT ACTIVE_STRIPE_TAIL_ARRAYLEN fuel
              (idx + MAX_VOLUME_COUNT) with
          | Run.done rest => Run.done (idx :: rest)
          | Run.intOverflow => Run.intOverflow
          | Run.outOfFuel => Run.outOfFuel
      else Run.done []

/-- The outer loop `for (int volumeId = 0; volumeId < MAX_VOLUME_COUNT; ++volumeId)`, started at
`volumeId`: one row of indices per volume id.  After each row `++volumeId` is computed on `int`.
The first argument is the fuel of this loop, `fuel` that of each inner loop. -/
def activeStripeTailRows (MAX_VOLUME_COUNT ACTIVE_STRIPE_TAIL_ARRAYLEN fuel : Nat) :
    Nat → Nat → Run (List (List Nat))
  | 0, volumeId => if volumeId < MAX_VOLUME_COUNT then Run.outOfFuel else Run.done []
  | outerFuel + 1, volumeId =>
      if volumeId < MAX_VOLUME_COUNT then
        match activeStripeTailRow MAX_VOLUME_COUNT ACTIVE_STRIPE_TAIL_ARRAYLEN fuel volumeId with
        | Run.done row =>
            if INT_MAX < volumeId + 1 then Run.intOverflow
            else
              match activeStripeTailRows MAX_VOLUME_COUNT ACTIVE_STRIPE_TAIL_ARRAYLEN fuel
                  outerFuel (volumeId + 1) with
              | Run.done rows => Run.done (row :: rows)
              | Run.intOverflow => Run.intOverflow
              | Run.outOfFuel => Run.outOfFuel
        | Run.intOverflow => Run.intOverflow
        | Run.outOfFuel => Run.outOfFuel
      else Run.done []

/-- The indices of all rows, in the order in which they are visited. -/
def visitedOfRows : List (List Nat) → List Nat
  | [] => []
  | row :: rows => row ++ visitedOfRows rows

/-- The output of the rows: one item per index, and an end of line after each row. -/
def reportOfRows (S : MetaInfoSource) : List (List Nat) → List ReportItem
  | [] => []
  | row :: rows =>
      row.map (fun idx => ReportItem.ActiveStripeTail idx (S.GetActiveStripeTail idx).stripeId
        (S.GetActiveStripeTail idx).offset)
      ++ [ReportItem.EndLine] ++ reportOfRows S rows

/-- The loop over the user-area segments: an end of line before every fourth segment but the
first, then the state and the valid block count of the segment. -/
def reportOfSegments (S : MetaInfoSource) (numUserAreaSegments : Nat) : List ReportItem :=
  (List.range numUserAreaSegments).flatMap (fun segmentId =>
    (if 0 < segmentId ∧ segmentId % 4 = 0 then [ReportItem.EndLine] else [])
    ++ [ReportItem.Segment segmentId (S.GetSegmentState segmentId)
          (S.GetValidBlockCount segmentId)])

/-- The loop over the rebuild target segments, `cnt` counting the iterations done. -/
def reportOfRebuildTargets : Nat → List Nat → List ReportItem
  | _, [] => []
  | cnt, target :: rest =>
      (if 0 < cnt ∧ cnt % 16 = 0 then [ReportItem.EndLine] else [])
      ++ [ReportItem.TargetSegment target, ReportItem.EndLine]
      ++ reportOfRebuildTargets (cnt + 1) rest

/-- The active-stripe-tail entries found in a report, in order: index, stripe id, offset. -/
def reportedTails : List ReportItem → List (Nat × Nat × Nat)
  | [] => []
  | ReportItem.ActiveStripeTail idx stripeId offset :: rest =>
      (idx, stripeId, offset) :: reportedTails rest
  | _ :: rest => reportedTails rest

/-- Outcome of `GetInstantMetaInfo`: the returned value, the indices passed to
`GetActiveStripeTail` in order, and the text appended to the file. -/
structure MetaInfoResult where
  ret : Int
  visited : List Nat
  report : List ReportItem
deriving DecidableEq

/-- Translation of `Allocator::GetInstantMetaInfo(fname)`.  `MAX_VOLUME_COUNT` and
`ACTIVE_STRIPE_TAIL_ARRAYLEN` are declared outside the translated sources and are parameters.
`fuel` bounds the iterations of the outer loop and of each inner loop. -/
def Allocator.GetInstantMetaInfo {W : Type} (MAX_VOLUME_COUNT ACTIVE_STRIPE_TAIL_ARRAYLEN : Nat)
    (S : MetaInfoSource) (a : Allocator W) (fuel : Nat) (_fname : String) :
    Run MetaInfoResult :=
  match activeStripeTailRows MAX_VOLUME_COUNT ACTIVE_STRIPE_TAIL_ARRAYLEN fuel fuel 0 with
  | Run.intOverflow => Run.intOverflow
  | Run.outOfFuel => Run.outOfFuel
  | Run.done rows =>
      Run.done ⟨0, visitedOfRows rows,
        [ReportItem.Title "<< WriteBuffers >>", ReportItem.EndLine,
          ReportItem.SetTotal a.contextManager.GetWbStripeCtx.GetAllocatedWbStripeCount
            a.contextManager.GetWbStripeCtx.GetNumTotalWbStripe, ReportItem.EndLine,
          ReportItem.Title "activeStripeTail[] Info", ReportItem.EndLine]
        ++ reportOfRows S rows
        ++ [ReportItem.EndLine,
          ReportItem.Title "<< Segments >>", ReportItem.EndLine,
          ReportItem.SetTotal a.contextManager.GetAllocatorCtx.GetAllocatedSegmentCount
            a.contextManager.GetAllocatorCtx.GetTotalSegmentsCount, ReportItem.EndLine,
          ReportItem.CurrentSsdLsid S.GetCurrentSsdLsid, ReportItem.EndLine]
        ++ reportOfSegments S a.numUserAreaSegments
        ++ [ReportItem.EndLine, ReportItem.EndLine,
          ReportItem.Title "<< Rebuild >>", ReportItem.EndLine,
          ReportItem.NeedRebuildCont S.NeedRebuildAgain, ReportItem.EndLine,
          ReportItem.TargetSegmentCount S.GetTargetSegmentCnt, ReportItem.EndLine,
          ReportItem.Title "TargetSegnent ID", ReportItem.EndLine]
        ++ reportOfRebuildTargets 0 S.RebuildTargetSegments
        ++ [ReportItem.EndLine]⟩

/-- Sample values for the getters: two rebuild targets, every tail at stripe `idx`, offset 0. -/
def sampleMetaInfoSource : MetaInfoSource where
  GetActiveStripeTail := fun idx => ⟨idx, 0⟩
  GetCurrentSsdLsid := 12
  GetSegmentState := fun _ => 0
  GetValidBlockCount := fun segmentId => segmentId + 3
  NeedRebuildAgain := false
  GetTargetSegmentCnt := 2
  RebuildTargetSegments := [0, 1]
  targetsFitInt := by decide

/-! ## Lemmas on raw memory -/

theorem readBytes_length (p : Mem) (len : Nat) : (readBytes p len).length = len := by
  simp [readBytes]

theorem readBytes_getD (p : Mem) (len i : Nat) (d : Byte) (h : i < len) :
    (readBytes p len).getD i d = p i := by
  simp [readBytes, List.getD_eq_getElem?_getD, List.getElem?_range, h]

theorem memcpy_replicate (src : Mem) (len : Nat) :
    memcpy (List.replicate len 0) src len = readBytes src len := by
  simp [memcpy]

theorem readBytes_congr (p q : Mem) (len : Nat) (h : ∀ i, i < len → p i = q i) :
    readBytes p len = readBytes q len := by
  unfold readBytes
  apply List.map_congr_left
  intro i hi
  exact h i (List.mem_range.mp hi)

theorem toUint32_of_lt (x : Nat) (h : x < 2 ^ 32) : toUint32 x = x := by
  unfold toUint32
  exact Nat.mod_eq_of_lt h

theorem ramBackend_storesAndReturns : StoresAndReturns ramBackend (fun fs f => fs f) := by
  constructor <;> intros <;> simp_all [ramBackend, ramTransfer]

theorem ramBackend_noIoFailure : NoIoFailure ramBackend := by
  constructor <;> intros <;> simp [ramBackend, ramTransfer] <;> split <;> simp

/-! ## Archive operations: segment tables -/

theorem readBytes_storeBytes (p q : Mem) (len : Nat) (data : List Byte)
    (h : ∀ i, i < len → data.getD i (p i) = q i) :
    readBytes (storeBytes p len data) len = readBytes q len := by
  apply readBytes_congr
  intro i hi
  simp only [storeBytes, if_pos hi]
  exact h i hi

/-- What a faithful backend delivers when the file written by one `IssueIO` at offset 0 is
closed, reopened and read from offset 0. -/
theorem read_after_write {F : Type} (B : MetaFileIntf F) (content : F → MockFileIntf → Mem)
    (hB : StoresAndReturns B content) (fs : F) (f : MockFileIntf) (src : Mem) (len : Nat)
    (old : List Byte) :
    ( B.AppendIO (B.Open (B.Close ( B.IssueIO fs f MetaFsIoOpcode.Write 0 len
        (readBytes src len)).fs f) f) f MetaFsIoOpcode.Read 0 len old).buffer
      = readBytes src len := by
  rw [hB.append_read]
  show _ = (List.range len).map src
  apply List.map_congr_left
  intro i hi
  have hi' : i < len := List.mem_range.mp hi
  rw [hB.open_content, hB.close_content,
    hB.issue_write fs f 0 len (readBytes src len) i (readBytes_length src len) hi']
  exact readBytes_getD src len i 0 hi'

/-- C1. Round trip of the segment tables.  For the valid-block-count table and for the
occupied-stripe-count table, for every segment count `n` with `4 * n < 2 ^ 32` and every content of
the table: with a backend that stores what is written and returns it on read, and no failing I/O,
`GetMeta(type, f)` followed, after an arbitrary change `cm` of the contexts, by `SetMeta(type, f)`
leaves the first `4 * n` bytes of the section equal to what they were when `GetMeta` ran. -/
theorem segment_table_round_trip {W F : Type} (K : Consts) (B : MetaFileIntf F)
    (content : F → MockFileIntf → Mem) (hB : StoresAndReturns B content) (hio : NoIoFailure B)
    (a : Allocator W) (cm : ContextManager) (fs : F) (fname : String)
    (hn : 4 * a.numUserAreaSegments < 2 ^ 32) :
    readBytes ((Allocator.SetMeta K B { a with contextManager := cm }
          (Allocator.GetMeta K B a fs WBT_SEGMENT_VALID_COUNT fname).fs
          WBT_SEGMENT_VALID_COUNT fname).alloc.contextManager.GetContextSectionAddr
        K.SEGMENT_CTX K.SC_SEGMENT_VALID_COUNT) (4 * a.numUserAreaSegments)
      = readBytes (a.contextManager.GetContextSectionAddr K.SEGMENT_CTX K.SC_SEGMENT_VALID_COUNT)
          (4 * a.numUserAreaSegments)
    ∧ readBytes ((Allocator.SetMeta K B { a with contextManager := cm }
          (Allocator.GetMeta K B a fs WBT_SEGMENT_OCCUPIED_STRIPE fname).fs
          WBT_SEGMENT_OCCUPIED_STRIPE fname).alloc.contextManager.GetContextSectionAddr
        K.SEGMENT_CTX K.SC_SEGMENT_OCCUPIED_STRIPE) (4 * a.numUserAreaSegments)
      = readBytes
          (a.contextManager.GetContextSectionAddr K.SEGMENT_CTX K.SC_SEGMENT_OCCUPIED_STRIPE)
          (4 * a.numUserAreaSegments) := by
  have hc : ¬ (B.Create fs ⟨fname, a.arrayName⟩ 0).1 < 0 :=
    not_lt.mpr (hio.create_ok fs ⟨fname, a.arrayName⟩ 0)
  have hne : ¬ (WBT_SEGMENT_VALID_COUNT = WBT_SEGMENT_OCCUPIED_STRIPE) := by decide
  constructor
  · simp only [Allocator.GetMeta, Allocator.SetMeta, if_neg hc, if_true, toUint32_of_lt _ hn,
      memcpy_replicate, ContextManager.GetContextSectionAddr, ContextManager.storeSection,
      and_self]
    apply readBytes_storeBytes
    intro i hi
    rw [read_after_write B content hB]
    exact readBytes_getD _ _ i _ hi
  · simp only [Allocator.GetMeta, Allocator.SetMeta, if_neg hc, if_neg hne, if_true,
      toUint32_of_lt _ hn, memcpy_replicate, ContextManager.GetContextSectionAddr,
      ContextManager.storeSection, and_self]
    apply readBytes_storeBytes
    intro i hi
    rw [read_after_write B content hB]
    exact readBytes_getD _ _ i _ hi

/-- Witness for C1: a two-segment array on the in-memory backend, every section zeroed between
the dump and the restore; both tables come back as dumped. -/
theorem segment_table_round_trip_witness :
    (StoresAndReturns ramBackend (fun fs f => fs f) ∧ NoIoFailure ramBackend
      ∧ 4 * sampleAllocator.numUserAreaSegments < 2 ^ 32)
    ∧ readBytes (zeroedContextManager.GetContextSectionAddr 0 1) 8 = [0, 0, 0, 0, 0, 0, 0, 0]
    ∧ readBytes ((Allocator.SetMeta sampleConsts ramBackend
          { sampleAllocator with contextManager := zeroedContextManager }
          (Allocator.GetMeta sampleConsts ramBackend sampleAllocator emptyStore
            WBT_SEGMENT_VALID_COUNT "dump").fs
          WBT_SEGMENT_VALID_COUNT "dump").alloc.contextManager.GetContextSectionAddr 0 1) 8
        = [3, 0, 0, 0, 5, 0, 0, 0]
    ∧ readBytes ((Allocator.SetMeta sampleConsts ramBackend
          { sampleAllocator with contextManager := zeroedContextManager }
          (Allocator.GetMeta sampleConsts ramBackend sampleAllocator emptyStore
            WBT_SEGMENT_OCCUPIED_STRIPE "dump").fs
          WBT_SEGMENT_OCCUPIED_STRIPE "dump").alloc.contextManager.GetContextSectionAddr 0 2) 8
        = [1, 0, 0, 0, 2, 0, 0, 0] :=
  ⟨⟨ramBackend_storesAndReturns, ramBackend_noIoFailure, by decide⟩, by decide,
    segment_table_round_trip sampleConsts ramBackend (fun fs f => fs f)
      ramBackend_storesAndReturns ramBackend_noIoFailure sampleAllocator zeroedContextManager
      emptyStore "dump" (by decide)⟩

/-- C2. Archive layout of the table sections.  For the valid-block-count table and for the
occupied-stripe-count table, for every segment count `n` with `4 * n < 2 ^ 32`: when the dump file
is created successfully, `GetMeta` issues exactly one write to the backend, at offset 0, of length
`4 * n`, whose payload is the first `4 * n` bytes of the section; no header precedes it.  The
backend is left in the state that this write, on the created and opened file, and the closing of
the file produce, and the status recorded for the write is the one the backend returned. -/
theorem getMeta_table_single_write {W F : Type} (K : Consts) (B : MetaFileIntf F)
    (a : Allocator W) (fs : F) (fname : String)
    (hc : 0 ≤ (B.Create fs ⟨fname, a.arrayName⟩ 0).1)
    (hn : 4 * a.numUserAreaSegments < 2 ^ 32) :
    (writes (Allocator.GetMeta K B a fs WBT_SEGMENT_VALID_COUNT fname).log
        = [⟨0, 4 * a.numUserAreaSegments,
            readBytes (a.contextManager.GetContextSectionAddr K.SEGMENT_CTX
              K.SC_SEGMENT_VALID_COUNT) (4 * a.numUserAreaSegments),
            ( B.IssueIO (B.Open (B.Create fs ⟨fname, a.arrayName⟩ 0).2 ⟨fname, a.arrayName⟩)
              ⟨fname, a.arrayName⟩ MetaFsIoOpcode.Write 0 (4 * a.numUserAreaSegments)
              (readBytes (a.contextManager.GetContextSectionAddr K.SEGMENT_CTX
                K.SC_SEGMENT_VALID_COUNT) (4 * a.numUserAreaSegments))).ret⟩]
      ∧ (Allocator.GetMeta K B a fs WBT_SEGMENT_VALID_COUNT fname).fs
        = B.Close ( B.IssueIO (B.Open (B.Create fs ⟨fname, a.arrayName⟩ 0).2
              ⟨fname, a.arrayName⟩) ⟨fname, a.arrayName⟩ MetaFsIoOpcode.Write 0
            (4 * a.numUserAreaSegments)
            (readBytes (a.contextManager.GetContextSectionAddr K.SEGMENT_CTX
              K.SC_SEGMENT_VALID_COUNT) (4 * a.numUserAreaSegments))).fs ⟨fname, a.arrayName⟩
      ∧ (Allocator.GetMeta K B a fs WBT_SEGMENT_VALID_COUNT fname).alloc = a)
    ∧ (writes (Allocator.GetMeta K B a fs WBT_SEGMENT_OCCUPIED_STRIPE fname).log
        = [⟨0, 4 * a.numUserAreaSegments,
            readBytes (a.contextManager.GetContextSectionAddr K.SEGMENT_CTX
              K.SC_SEGMENT_OCCUPIED_STRIPE) (4 * a.numUserAreaSegments),
            ( B.IssueIO (B.Open (B.Create fs ⟨fname, a.arrayName⟩ 0).2 ⟨fname, a.arrayName⟩)
              ⟨fname, a.arrayName⟩ MetaFsIoOpcode.Write 0 (4 * a.numUserAreaSegments)
              (readBytes (a.contextManager.GetContextSectionAddr K.SEGMENT_CTX
                K.SC_SEGMENT_OCCUPIED_STRIPE) (4 * a.numUserAreaSegments))).ret⟩]
      ∧ (Allocator.GetMeta K B a fs WBT_SEGMENT_OCCUPIED_STRIPE fname).fs
        = B.Close ( B.IssueIO (B.Open (B.Create fs ⟨fname, a.arrayName⟩ 0).2
              ⟨fname, a.arrayName⟩) ⟨fname, a.arrayName⟩ MetaFsIoOpcode.Write 0
            (4 * a.numUserAreaSegments)
            (readBytes (a.contextManager.GetContextSectionAddr K.SEGMENT_CTX
              K.SC_SEGMENT_OCCUPIED_STRIPE) (4 * a.numUserAreaSegments))).fs ⟨fname, a.arrayName⟩
      ∧ (Allocator.GetMeta K B a fs WBT_SEGMENT_OCCUPIED_STRIPE fname).alloc = a) := by
  have hc' : ¬ (B.Create fs ⟨fname, a.arrayName⟩ 0).1 < 0 := not_lt.mpr hc
  have hne : ¬ (WBT_SEGMENT_VALID_COUNT = WBT_SEGMENT_OCCUPIED_STRIPE) := by decide
  constructor
  · rw [Allocator.GetMeta]
    simp only [if_neg hc', if_true, toUint32_of_lt _ hn, memcpy_replicate]
    refine ⟨?_, trivial, trivial⟩
    split <;> rfl
  · rw [Allocator.GetMeta]
    simp only [if_neg hc', if_neg hne, if_true, toUint32_of_lt _ hn, memcpy_replicate]
    refine ⟨?_, trivial, trivial⟩
    split <;> rfl

/-- Witness for C2: the dump of the two tables of a two-segment array on the in-memory backend;
after the dump the file holds the 8 bytes of the table from offset 0 on. -/
theorem getMeta_table_single_write_witness :
    (0 ≤ (ramBackend.Create emptyStore ⟨"dump", sampleAllocator.arrayName⟩ 0).1
      ∧ 4 * sampleAllocator.numUserAreaSegments < 2 ^ 32)
    ∧ (writes (Allocator.GetMeta sampleConsts ramBackend sampleAllocator emptyStore
          WBT_SEGMENT_VALID_COUNT "dump").log = [⟨0, 8, [3, 0, 0, 0, 5, 0, 0, 0], 0⟩]
      ∧ readBytes ((Allocator.GetMeta sampleConsts ramBackend sampleAllocator emptyStore
          WBT_SEGMENT_VALID_COUNT "dump").fs ⟨"dump", "POSArray"⟩) 10
        = [3, 0, 0, 0, 5, 0, 0, 0, 0, 0])
    ∧ (writes (Allocator.GetMeta sampleConsts ramBackend sampleAllocator emptyStore
          WBT_SEGMENT_OCCUPIED_STRIPE "dump").log = [⟨0, 8, [1, 0, 0, 0, 2, 0, 0, 0], 0⟩]
      ∧ readBytes ((Allocator.GetMeta sampleConsts ramBackend sampleAllocator emptyStore
          WBT_SEGMENT_OCCUPIED_STRIPE "dump").fs ⟨"dump", "POSArray"⟩) 10
        = [1, 0, 0, 0, 2, 0, 0, 0, 0, 0]) :=
  ⟨⟨by decide, by decide⟩,
    ⟨(getMeta_table_single_write sampleConsts ramBackend sampleAllocator emptyStore "dump"
        (by decide) (by decide)).1.1,
      congrArg (fun st : RamStore => readBytes (st ⟨"dump", "POSArray"⟩) 10)
        (getMeta_table_single_write sampleConsts ramBackend sampleAllocator emptyStore "dump"
          (by decide) (by decide)).1.2.1⟩,
    ⟨(getMeta_table_single_write sampleConsts ramBackend sampleAllocator emptyStore "dump"
        (by decide) (by decide)).2.1,
      congrArg (fun st : RamStore => readBytes (st ⟨"dump", "POSArray"⟩) 10)
        (getMeta_table_single_write sampleConsts ramBackend sampleAllocator emptyStore "dump"
          (by decide) (by decide)).2.2.1⟩⟩

/-- For the two segment tables a failing read is reported as
`-EID(ALLOCATOR_META_ARCHIVE_LOAD)`. -/
theorem setMeta_table_read_error {W F : Type} (K : Consts) (B : MetaFileIntf F)
    (a : Allocator W) (fs : F) (type : WBTAllocatorMetaType) (fname : String)
    (htype : type = WBT_SEGMENT_VALID_COUNT ∨ type = WBT_SEGMENT_OCCUPIED_STRIPE) :
    ∃ r, reads (Allocator.SetMeta K B a fs type fname).log = [r]
      ∧ (r.ret < 0 →
          (Allocator.SetMeta K B a fs type fname).ret = -K.EID_ALLOCATOR_META_ARCHIVE_LOAD) := by
  have hne : ¬ (WBT_SEGMENT_VALID_COUNT = WBT_SEGMENT_OCCUPIED_STRIPE) := by decide
  rcases htype with h | h <;> subst h
  · simp only [Allocator.SetMeta, if_true]
    split
    · exact ⟨_, rfl, fun _ => rfl⟩
    · rename_i hr
      exact ⟨_, rfl, fun h => absurd h hr⟩
  · simp only [Allocator.SetMeta, if_neg hne, if_true]
    split
    · exact ⟨_, rfl, fun _ => rfl⟩
    · rename_i hr
      exact ⟨_, rfl, fun h => absurd h hr⟩

/-- For the two bitmap summaries `SetMeta` issues one read and returns its status as it is. -/
theorem setMeta_bitmap_returns_read_status {W F : Type} (K : Consts) (B : MetaFileIntf F)
    (a : Allocator W) (fs : F) (type : WBTAllocatorMetaType) (fname : String)
    (htype : type = WBT_WBLSID_BITMAP ∨ type = WBT_SEGMENT_BITMAP) :
    ∃ r, reads (Allocator.SetMeta K B a fs type fname).log = [r]
      ∧ (Allocator.SetMeta K B a fs type fname).ret = r.ret := by
  rcases htype with h | h <;> subst h
  · exact ⟨_, rfl, rfl⟩
  · exact ⟨_, rfl, rfl⟩

/-- C4. Evaluation at the failing input: the backend read fails with status -5 while
`-EID(ALLOCATOR_META_ARCHIVE_LOAD)` is -3002.  For the two bitmap summaries `SetMeta` issues the
4-byte read and returns -5; for the two segment tables it returns -3002. -/
theorem setMeta_bitmap_read_error_unmapped :
    -sampleConsts.EID_ALLOCATOR_META_ARCHIVE_LOAD = -3002
    ∧ reads (Allocator.SetMeta sampleConsts (statusBackend (-5)) sampleAllocator emptyStore
        WBT_WBLSID_BITMAP "dump").log = [⟨0, 4, [0, 0, 0, 0], -5⟩]
    ∧ (Allocator.SetMeta sampleConsts (statusBackend (-5)) sampleAllocator emptyStore
        WBT_WBLSID_BITMAP "dump").ret = -5
    ∧ reads (Allocator.SetMeta sampleConsts (statusBackend (-5)) sampleAllocator emptyStore
        WBT_SEGMENT_BITMAP "dump").log = [⟨0, 4, [0, 0, 0, 0], -5⟩]
    ∧ (Allocator.SetMeta sampleConsts (statusBackend (-5)) sampleAllocator emptyStore
        WBT_SEGMENT_BITMAP "dump").ret = -5
    ∧ (Allocator.SetMeta sampleConsts (statusBackend (-5)) sampleAllocator emptyStore
        WBT_SEGMENT_VALID_COUNT "dump").ret = -3002
    ∧ (Allocator.SetMeta sampleConsts (statusBackend (-5)) sampleAllocator emptyStore
        WBT_SEGMENT_OCCUPIED_STRIPE "dump").ret = -3002 := by
  decide

/-! ## Archive operations: numbered allocator-context sections -/

/-- C6. `Dispose` on an initialized allocator issues, in this order and each exactly once,
`FlushAllActiveStripes`, `FlushContextsSync`, the context manager's `Close` and the
unregistration from the allocator service (interleaved only with two trace messages and the
lookup of the array name), and leaves `isInitialized` false.  On an allocator that is not
initialized it issues no call and returns the allocator unchanged. -/
theorem dispose_sequence {W : Type} (K : Consts) (E : Submodules W) (a : Allocator W) :
    (a.isInitialized = true →
      (Allocator.Dispose K E a).log.map (fun l => l.call)
        = [SubCall.TraceInfo K.EID_ARRAY_UNMOUNTING, SubCall.FlushAllActiveStripes,
            SubCall.TraceInfo K.EID_ARRAY_UNMOUNTING, SubCall.FlushContextsSync,
            SubCall.ContextManagerClose, SubCall.GetName,
            SubCall.UnregisterAllocator a.arrayName]
      ∧ (Allocator.Dispose K E a).alloc.sub
        = E.UnregisterAllocator (E.ContextManagerClose
            (E.FlushContextsSync (E.FlushAllActiveStripes a.sub)).2) a.arrayName
      ∧ (Allocator.Dispose K E a).alloc.isInitialized = false)
    ∧ (a.isInitialized = false →
      (Allocator.Dispose K E a).log = [] ∧ (Allocator.Dispose K E a).alloc = a) := by
  constructor
  · intro h
    rw [Allocator.Dispose, if_pos h]
    exact ⟨rfl, rfl, rfl⟩
  · intro h
    have h' : ¬ (a.isInitialized = true) := by simp [h]
    rw [Allocator.Dispose, if_neg h']
    exact ⟨rfl, rfl⟩

/-- Witness for C6: the initialized sample allocator, and the same allocator not initialized. -/
theorem dispose_sequence_witness :
    (sampleAllocator.isInitialized = true
      ∧ (Allocator.Dispose sampleConsts sampleSubmodules sampleAllocator).log.map
          (fun l => l.call)
        = [SubCall.TraceInfo 2500, SubCall.FlushAllActiveStripes, SubCall.TraceInfo 2500,
            SubCall.FlushContextsSync, SubCall.ContextManagerClose, SubCall.GetName,
            SubCall.UnregisterAllocator "POSArray"]
      ∧ (Allocator.Dispose sampleConsts sampleSubmodules sampleAllocator).alloc.sub = 4
      ∧ (Allocator.Dispose sampleConsts sampleSubmodules sampleAllocator).alloc.isInitialized
        = false)
    ∧ ({ sampleAllocator with isInitialized := false }.isInitialized = false
      ∧ (Allocator.Dispose sampleConsts sampleSubmodules
          { sampleAllocator with isInitialized := false }).log = []
      ∧ (Allocator.Dispose sampleConsts sampleSubmodules
          { sampleAllocator with isInitialized := false }).alloc
        = { sampleAllocator with isInitialized := false }) :=
  ⟨⟨rfl, (dispose_sequence sampleConsts sampleSubmodules sampleAllocator).1 rfl⟩,
    ⟨rfl, (dispose_sequence sampleConsts sampleSubmodules
      { sampleAllocator with isInitialized := false }).2 rfl⟩⟩

/-- C7. `VolumeUnmounted(volName, volID, arrayName)`, for every `volID`, takes the context lock,
calls `PickActiveStripe` once for stream `volID` (as converted to the unsigned parameter) with
empty lists while the lock is held, releases the lock, then calls `FinalizeWriteIO` once, the
lock not held, with exactly the two lists `PickActiveStripe` filled, and returns true. -/
theorem volumeUnmounted_sequence {W : Type} (E : Submodules W) (a : Allocator W)
    (volName : String) (volID : Int) (arrayName : String) :
    (Allocator.VolumeUnmounted E a volName volID arrayName).log
      = [⟨a.contextManager.ctxLock, a.blkAllocProhibited, SubCall.GetCtxLock⟩,
          ⟨a.contextManager.ctxLock, a.blkAllocProhibited, SubCall.Lock⟩,
          ⟨true, a.blkAllocProhibited, SubCall.PickActiveStripe (intToUint32 volID) [] []⟩,
          ⟨true, a.blkAllocProhibited, SubCall.Unlock⟩,
          ⟨false, a.blkAllocProhibited, SubCall.FinalizeWriteIO
            (E.PickActiveStripe a.sub (intToUint32 volID) [] []).stripesToFlush
            (E.PickActiveStripe a.sub (intToUint32 volID) [] []).vsidToCheckFlushDone⟩]
    ∧ (Allocator.VolumeUnmounted E a volName volID arrayName).alloc.sub
      = ( E.FinalizeWriteIO (E.PickActiveStripe a.sub (intToUint32 volID) [] []).sub
          (E.PickActiveStripe a.sub (intToUint32 volID) [] []).stripesToFlush
          (E.PickActiveStripe a.sub (intToUint32 volID) [] []).vsidToCheckFlushDone).sub
    ∧ (Allocator.VolumeUnmounted E a volName volID arrayName).ret = true :=
  ⟨rfl, rfl, rfl⟩

/-- C8. `FlushAllUserdataWBT` issues the calls `TurnOffBlkAllocation`,
`CheckAllActiveStripes`, `TurnOnBlkAllocation`, `FinalizeWriteIO`, in this order.
`CheckAllActiveStripes` is called with empty lists while block allocation is suspended;
`FinalizeWriteIO` receives exactly the two lists `CheckAllActiveStripes` filled; block allocation
is on again when the function returns.  The submodules are left in the state that the four
calls, applied in this order, produce: `FinalizeWriteIO` runs on the state after
`TurnOnBlkAllocation`, which runs on the state `CheckAllActiveStripes` left, which runs on the
state after `TurnOffBlkAllocation`. -/
theorem flushAllUserdataWBT_sequence {W : Type} (E : Submodules W) (a : Allocator W) :
    (Allocator.FlushAllUserdataWBT E a).log
      = [⟨a.contextManager.ctxLock, a.blkAllocProhibited, SubCall.TurnOffBlkAllocation⟩,
          ⟨a.contextManager.ctxLock, true, SubCall.CheckAllActiveStripes [] []⟩,
          ⟨a.contextManager.ctxLock, true, SubCall.TurnOnBlkAllocation⟩,
          ⟨a.contextManager.ctxLock, false, SubCall.FinalizeWriteIO
            (E.CheckAllActiveStripes (E.TurnOffBlkAllocation a.sub) [] []).2.stripesToFlush
            (E.CheckAllActiveStripes (E.TurnOffBlkAllocation a.sub) [] []).2.vsidToCheckFlushDone⟩]
    ∧ (Allocator.FlushAllUserdataWBT E a).alloc.sub
      = ( E.FinalizeWriteIO
          (E.TurnOnBlkAllocation
            (E.CheckAllActiveStripes (E.TurnOffBlkAllocation a.sub) [] []).2.sub)
          (E.CheckAllActiveStripes (E.TurnOffBlkAllocation a.sub) [] []).2.stripesToFlush
          (E.CheckAllActiveStripes (E.TurnOffBlkAllocation a.sub) [] []).2.vsidToCheckFlushDone).sub
    ∧ (Allocator.FlushAllUserdataWBT E a).alloc.blkAllocProhibited = false
    ∧ (Allocator.FlushAllUserdataWBT E a).alloc.contextManager = a.contextManager
    ∧ (Allocator.FlushAllUserdataWBT E a).alloc.isInitialized = a.isInitialized :=
  ⟨rfl, rfl, rfl, rfl, rfl⟩

/-- C10, as stated, fails.  With a context manager whose `Init` reports the failure -1, `Init`
of a not yet initialized allocator returns 0 and marks the allocator initialized; with
`FlushContextsSync` reporting -1, `Dispose` ends in the same result as when it reports 0. -/
theorem lifecycle_failure_not_reported :
    ((sampleSubmodules.withInitStatus (-1)).ContextManagerInit 1).1 = -1
    ∧ (Allocator.Init (sampleSubmodules.withInitStatus (-1))
        { sampleAllocator with isInitialized := false }).ret = 0
    ∧ (Allocator.Init (sampleSubmodules.withInitStatus (-1))
        { sampleAllocator with isInitialized := false }).alloc.isInitialized = true
    ∧ ((sampleSubmodules.withFlushStatus (-1)).FlushContextsSync 1).1 = -1
    ∧ (Allocator.Dispose sampleConsts (sampleSubmodules.withFlushStatus (-1))
        sampleAllocator).ret = (Allocator.Dispose sampleConsts sampleSubmodules sampleAllocator).ret
    ∧ (Allocator.Dispose sampleConsts (sampleSubmodules.withFlushStatus (-1))
        sampleAllocator).alloc.sub
      = (Allocator.Dispose sampleConsts sampleSubmodules sampleAllocator).alloc.sub
    ∧ (Allocator.Dispose sampleConsts (sampleSubmodules.withFlushStatus (-1))
        sampleAllocator).alloc.isInitialized
      = (Allocator.Dispose sampleConsts sampleSubmodules sampleAllocator).alloc.isInitialized
    ∧ (Allocator.Dispose sampleConsts (sampleSubmodules.withFlushStatus (-1))
        sampleAllocator).log
      = (Allocator.Dispose sampleConsts sampleSubmodules sampleAllocator).log := by
  decide

/-- C10, amended.  `Init` returns 0 in every case, and `Dispose` returns no value; the status
that `ContextManager::Init` and `FlushContextsSync` report is not used: whatever status `r` is
reported, `Init` and `Dispose` return the same value, leave the same allocator and issue the same
calls. -/
theorem lifecycle_status_discarded {W : Type} (K : Consts) (E : Submodules W) (a : Allocator W)
    (r : Int) :
    (Allocator.Init E a).ret = 0
    ∧ Allocator.Init (E.withInitStatus r) a = Allocator.Init E a
    ∧ Allocator.Dispose K (E.withFlushStatus r) a = Allocator.Dispose K E a := by
  refine ⟨?_, ?_, ?_⟩
  · unfold Allocator.Init
    split <;> rfl
  · rfl
  · rfl

/-! ## Archive operations: wrong meta type, failed bitmap read -/

/-- For a type that is not below `WBT_NUM_ALLOCATOR_META`, once the dump file is created,
`GetMeta` records the wrong type and still issues the write of section `type + 1`; the result is
decided by the status of that write alone. -/
theorem getMeta_wrong_type_status {W F : Type} (K : Consts) (B : MetaFileIntf F)
    (a : Allocator W) (fs : F) (type : WBTAllocatorMetaType) (fname : String)
    (hc : 0 ≤ (B.Create fs ⟨fname, a.arrayName⟩ 0).1) (htype : WBT_NUM_ALLOCATOR_META ≤ type) :
    ∃ w, writes (Allocator.GetMeta K B a fs type fname).log = [w]
      ∧ (Allocator.GetMeta K B a fs type fname).ret
        = if w.ret < 0 then -K.EID_ALLOCATOR_META_ARCHIVE_STORE else w.ret := by
  have hc' : ¬ (B.Create fs ⟨fname, a.arrayName⟩ 0).1 < 0 := not_lt.mpr hc
  have hge : (7 : Nat) ≤ type := htype
  have h5 : ¬ (WBT_SEGMENT_VALID_COUNT = type) :=
    Nat.ne_of_lt (Nat.lt_of_lt_of_le (by decide) hge)
  have h6 : ¬ (WBT_SEGMENT_OCCUPIED_STRIPE = type) :=
    Nat.ne_of_lt (Nat.lt_of_lt_of_le (by decide) hge)
  simp only [Allocator.GetMeta, if_neg hc', if_neg h5, if_neg h6, if_pos htype]
  split
  · rename_i hw
    exact ⟨_, rfl, (if_pos hw).symm⟩
  · rename_i hw
    exact ⟨_, rfl, (if_neg hw).symm⟩

/-- C11. Evaluation at the failing input: type `WBT_NUM_ALLOCATOR_META`, the dump file is created
and the backend write succeeds with status 0, while `-EID(ALLOCATOR_META_ARCHIVE_STORE)` is
-3001.  `GetMeta` records the wrong type, writes the 0 bytes of section 8 and returns 0; with a
write returning 7 it returns 7; only with a failing write (status -5) it returns -3001. -/
theorem getMeta_wrong_type_not_rejected :
    -sampleConsts.EID_ALLOCATOR_META_ARCHIVE_STORE = -3001
    ∧ (Allocator.GetMeta sampleConsts ramBackend sampleAllocator emptyStore
        WBT_NUM_ALLOCATOR_META "dump").log
      = [FileCall.Create ⟨"dump", "POSArray"⟩ 0 0, FileCall.Open ⟨"dump", "POSArray"⟩,
          FileCall.TraceError 3001,
          FileCall.AppendIO ⟨"dump", "POSArray"⟩ MetaFsIoOpcode.Write 0 0 [] 0,
          FileCall.Close ⟨"dump", "POSArray"⟩]
    ∧ (Allocator.GetMeta sampleConsts ramBackend sampleAllocator emptyStore
        WBT_NUM_ALLOCATOR_META "dump").ret = 0
    ∧ (Allocator.GetMeta sampleConsts (statusBackend 7) sampleAllocator emptyStore
        WBT_NUM_ALLOCATOR_META "dump").ret = 7
    ∧ (Allocator.GetMeta sampleConsts (statusBackend 7) sampleAllocator emptyStore
        (WBT_NUM_ALLOCATOR_META + 5) "dump").ret = 7
    ∧ (Allocator.GetMeta sampleConsts (statusBackend (-5)) sampleAllocator emptyStore
        WBT_NUM_ALLOCATOR_META "dump").ret = -3001 := by
  decide

/-- For the two bitmap summaries, when the read leaves `numBitsSet` as it was (whatever status it
returns), `SetMeta` stores 0 as the allocated count. -/
theorem setMeta_bitmap_stores_zero {W F : Type} (K : Consts) (B : MetaFileIntf F)
    (a : Allocator W) (fs : F) (fname : String)
    (hbuf : ( B.AppendIO (B.Open fs ⟨fname, a.arrayName⟩) ⟨fname, a.arrayName⟩
      MetaFsIoOpcode.Read 0 4 [0, 0, 0, 0]).buffer = [0, 0, 0, 0]) :
    (Allocator.SetMeta K B a fs WBT_WBLSID_BITMAP
        fname).alloc.contextManager.GetWbStripeCtx.GetAllocatedWbStripeCount = 0
    ∧ (Allocator.SetMeta K B a fs WBT_SEGMENT_BITMAP
        fname).alloc.contextManager.GetAllocatorCtx.GetAllocatedSegmentCount = 0 := by
  constructor
  · show uint32OfMem (storeBytes (memOfUint32 0) 4
      ( B.AppendIO _ _ MetaFsIoOpcode.Read 0 4 [0, 0, 0, 0]).buffer) = 0
    rw [hbuf]
    decide
  · show uint32OfMem (storeBytes (memOfUint32 0) 4
      ( B.AppendIO _ _ MetaFsIoOpcode.Read 0 4 [0, 0, 0, 0]).buffer) = 0
    rw [hbuf]
    decide

/-- C12. Evaluation at the failing input: 1 write-buffer stripe and 1 segment are allocated, the
backend read fails with status -5 and moves no data.  After `SetMeta(WBT_WBLSID_BITMAP, f)` the
allocated write-buffer stripe count is 0, and after `SetMeta(WBT_SEGMENT_BITMAP, f)` the allocated
segment count is 0.  In the same situation the two segment tables keep their bytes. -/
theorem setMeta_bitmap_failed_read_clobbers_count :
    sampleAllocator.contextManager.GetWbStripeCtx.GetAllocatedWbStripeCount = 1
    ∧ sampleAllocator.contextManager.GetAllocatorCtx.GetAllocatedSegmentCount = 1
    ∧ reads (Allocator.SetMeta sampleConsts (statusBackend (-5)) sampleAllocator emptyStore
        WBT_WBLSID_BITMAP "dump").log = [⟨0, 4, [0, 0, 0, 0], -5⟩]
    ∧ (Allocator.SetMeta sampleConsts (statusBackend (-5)) sampleAllocator emptyStore
        WBT_WBLSID_BITMAP
        "dump").alloc.contextManager.GetWbStripeCtx.GetAllocatedWbStripeCount = 0
    ∧ reads (Allocator.SetMeta sampleConsts (statusBackend (-5)) sampleAllocator emptyStore
        WBT_SEGMENT_BITMAP "dump").log = [⟨0, 4, [0, 0, 0, 0], -5⟩]
    ∧ (Allocator.SetMeta sampleConsts (statusBackend (-5)) sampleAllocator emptyStore
        WBT_SEGMENT_BITMAP
        "dump").alloc.contextManager.GetAllocatorCtx.GetAllocatedSegmentCount = 0
    ∧ readBytes ((Allocator.SetMeta sampleConsts (statusBackend (-5)) sampleAllocator emptyStore
        WBT_SEGMENT_VALID_COUNT "dump").alloc.contextManager.GetContextSectionAddr 0 1) 8
      = [3, 0, 0, 0, 5, 0, 0, 0]
    ∧ readBytes ((Allocator.SetMeta sampleConsts (statusBackend (-5)) sampleAllocator emptyStore
        WBT_SEGMENT_OCCUPIED_STRIPE "dump").alloc.contextManager.GetContextSectionAddr 0 2) 8
      = [1, 0, 0, 0, 2, 0, 0, 0] := by
  decide

/-! ## The instant meta report: the active-stripe-tail loops -/

/-- One step of the stride: past `idx`, the indices reached from `idx + M` are those reached
from `idx`. -/
theorem stride_step (M idx i : Nat) (hM : 0 < M) (hne : i ≠ idx) :
    (idx + M ≤ i ∧ (i - (idx + M)) % M = 0) ↔ (idx ≤ i ∧ (i - idx) % M = 0) := by
  constructor
  · rintro ⟨hle, hmod⟩
    refine ⟨by omega, ?_⟩
    have hge : i - idx ≥ M := by omega
    rw [Nat.mod_eq_sub_mod hge, Nat.sub_sub]
    exact hmod
  · rintro ⟨hle, hmod⟩
    have hpos : 0 < i - idx := by omega
    have hge : M ≤ i - idx := Nat.le_of_dvd hpos (Nat.dvd_of_mod_eq_zero hmod)
    refine ⟨by omega, ?_⟩
    rw [← Nat.sub_sub, ← Nat.mod_eq_sub_mod hge]
    exact hmod

/-- When the sum of the two constants fits an `int`, the inner loop ends without overflow as
soon as the fuel covers the array length, and visits, once each, the indices below the array
length that lie a multiple of the stride above its start. -/
theorem activeStripeTailRow_count (M L : Nat) (hM : 0 < M) (hfit : L + M ≤ 2147483648) :
    ∀ fuel idx, L ≤ fuel + idx →
      ∃ row, activeStripeTailRow M L fuel idx = Run.done row
        ∧ ∀ i, row.count i = if idx ≤ i ∧ i < L ∧ (i - idx) % M = 0 then 1 else 0 := by
  intro fuel
  induction fuel with
  | zero =>
    intro idx h
    have hnl : ¬ idx < L := by omega
    refine ⟨[], by simp [activeStripeTailRow, hnl], ?_⟩
    intro i
    have hno : ¬ (idx ≤ i ∧ i < L ∧ (i - idx) % M = 0) := by
      rintro ⟨h1, h2, _⟩
      omega
    rw [if_neg hno]
    rfl
  | succ fuel ih =>
    intro idx h
    by_cases hl : idx < L
    · have hov : ¬ INT_MAX < idx + M := by
        unfold INT_MAX
        omega
      obtain ⟨rest, hrest, hcount⟩ := ih (idx + M) (by omega)
      refine ⟨idx :: rest, by simp [activeStripeTailRow, hl, hov, hrest], ?_⟩
      intro i
      rw [List.count_cons, hcount i]
      by_cases hi : i = idx
      · subst hi
        have hno : ¬ (i + M ≤ i ∧ i < L ∧ (i - (i + M)) % M = 0) := by
          rintro ⟨h1, _, _⟩
          omega
        have hyes : i ≤ i ∧ i < L ∧ (i - i) % M = 0 := ⟨le_refl i, hl, by simp⟩
        rw [if_neg hno, if_pos hyes]
        simp
      · have hne : ¬ ((idx == i) = true) := by
          simpa using fun h => hi h.symm
        rw [if_neg hne, Nat.add_zero]
        have hiff : (idx + M ≤ i ∧ i < L ∧ (i - (idx + M)) % M = 0)
            ↔ (idx ≤ i ∧ i < L ∧ (i - idx) % M = 0) := by
          have hs := stride_step M idx i hM hi
          constructor
          · rintro ⟨h1, h2, h3⟩
            exact ⟨(hs.mp ⟨h1, h3⟩).1, h2, (hs.mp ⟨h1, h3⟩).2⟩
          · rintro ⟨h1, h2, h3⟩
            exact ⟨(hs.mpr ⟨h1, h3⟩).1, h2, (hs.mpr ⟨h1, h3⟩).2⟩
        by_cases hc : idx ≤ i ∧ i < L ∧ (i - idx) % M = 0
        · rw [if_pos hc, if_pos (hiff.mpr hc)]
        · rw [if_neg hc, if_neg (fun h => hc (hiff.mp h))]
    · refine ⟨[], by simp [activeStripeTailRow, hl], ?_⟩
      intro i
      have hno : ¬ (idx ≤ i ∧ i < L ∧ (i - idx) % M = 0) := by
        rintro ⟨h1, h2, _⟩
        omega
      rw [if_neg hno]
      rfl

/-- When the constants fit, the outer loop started at `v` ends without overflow as soon as its
fuel covers the remaining volume ids; an index is visited once for every volume id from `v` on
that it lies a multiple of the stride above. -/
theorem activeStripeTailRows_count (M L fuel : Nat) (hM : 0 < M) (hint : M ≤ 2147483647)
    (hfit : L + M ≤ 2147483648) (hfuel : L ≤ fuel) :
    ∀ n v, M ≤ n + v →
      ∃ rows, activeStripeTailRows M L fuel n v = Run.done rows
        ∧ ∀ i, (visitedOfRows rows).count i
            = (List.range' v (M - v)).countP
                (fun w => decide (w ≤ i ∧ i < L ∧ (i - w) % M = 0)) := by
  intro n
  induction n with
  | zero =>
    intro v h
    have hnl : ¬ v < M := by omega
    have hz : M - v = 0 := by omega
    refine ⟨[], by simp [activeStripeTailRows, hnl], ?_⟩
    intro i
    rw [hz]
    rfl
  | succ n ih =>
    intro v h
    by_cases hl : v < M
    · obtain ⟨row, hrow, hrowc⟩ := activeStripeTailRow_count M L hM hfit fuel v (by omega)
      obtain ⟨rows, hrows, hrowsc⟩ := ih (v + 1) (by omega)
      have hov : ¬ INT_MAX < v + 1 := by
        unfold INT_MAX
        omega
      refine ⟨row :: rows, by simp [activeStripeTailRows, hl, hrow, hov, hrows], ?_⟩
      intro i
      have hs : M - v = (M - (v + 1)) + 1 := by omega
      rw [hs, List.range'_succ, visitedOfRows, List.count_append, hrowc i, hrowsc i,
        List.countP_cons, Nat.add_comm]
      simp
    · have hz : M - v = 0 := by omega
      refine ⟨[], by simp [activeStripeTailRows, hl], ?_⟩
      intro i
      rw [hz]
      rfl

/-- Among the volume ids below the stride, an index below the array length lies a multiple of
the stride above exactly one: its residue. -/
theorem residue_count (M L i : Nat) (hM : 0 < M) :
    (List.range M).countP (fun v => decide (v ≤ i ∧ i < L ∧ (i - v) % M = 0))
      = if i < L then 1 else 0 := by
  by_cases hi : i < L
  · rw [if_pos hi]
    have hcongr : (List.range M).countP (fun v => decide (v ≤ i ∧ i < L ∧ (i - v) % M = 0))
        = (List.range M).count (i % M) := by
      unfold List.count
      apply List.countP_congr
      intro v hv
      have hvM : v < M := List.mem_range.mp hv
      simp only [decide_eq_true_eq, beq_iff_eq]
      constructor
      · rintro ⟨hle, _, hmod⟩
        have hsplit : i = (i - v) + v := by omega
        have h1 : i % M = v % M := by
          rw [hsplit, Nat.add_mod, hmod, Nat.zero_add, Nat.mod_mod]
        rw [h1, Nat.mod_eq_of_lt hvM]
      · intro hv'
        subst hv'
        exact ⟨Nat.mod_le i M, hi, Nat.sub_mod_eq_zero_of_mod_eq (Nat.mod_mod i M).symm⟩
    rw [hcongr]
    exact List.count_eq_one_of_mem (List.nodup_range M) (List.mem_range.mpr (Nat.mod_lt i hM))
  · rw [if_neg hi, List.countP_eq_zero]
    intro v _
    simp [hi]

/-! ## The instant meta report: what the report holds -/

theorem reportedTails_append (xs ys : List ReportItem) :
    reportedTails (xs ++ ys) = reportedTails xs ++ reportedTails ys := by
  induction xs with
  | nil => rfl
  | cons x xs ih => cases x <;> simp [reportedTails, ih]

/-- The items of one row are its indices with the tail found at each. -/
theorem reportedTails_row (S : MetaInfoSource) (row : List Nat) :
    reportedTails (row.map (fun idx => ReportItem.ActiveStripeTail idx
        (S.GetActiveStripeTail idx).stripeId (S.GetActiveStripeTail idx).offset))
      = row.map (fun idx => (idx, (S.GetActiveStripeTail idx).stripeId,
          (S.GetActiveStripeTail idx).offset)) := by
  induction row with
  | nil => rfl
  | cons x xs ih => simp [reportedTails, ih]

theorem reportedTails_reportOfRows (S : MetaInfoSource) (rows : List (List Nat)) :
    reportedTails (reportOfRows S rows)
      = (visitedOfRows rows).map (fun idx => (idx, (S.GetActiveStripeTail idx).stripeId,
          (S.GetActiveStripeTail idx).offset)) := by
  induction rows with
  | nil => rfl
  | cons row rows ih =>
    rw [reportOfRows, visitedOfRows, reportedTails_append, reportedTails_append,
      reportedTails_row, ih, List.map_append]
    simp [reportedTails]

/-- The loop over the segments reports no active-stripe-tail entry. -/
theorem reportedTails_segmentItems (S : MetaInfoSource) (ids : List Nat) :
    reportedTails (ids.flatMap (fun segmentId =>
      (if 0 < segmentId ∧ segmentId % 4 = 0 then [ReportItem.EndLine] else [])
      ++ [ReportItem.Segment segmentId (S.GetSegmentState segmentId)
            (S.GetValidBlockCount segmentId)])) = [] := by
  induction ids with
  | nil => rfl
  | cons x xs ih =>
    rw [List.flatMap_cons, reportedTails_append, ih, reportedTails_append]
    split <;> simp [reportedTails]

/-- The loop over the rebuild targets reports no active-stripe-tail entry. -/
theorem reportedTails_rebuildTargets (targets : List Nat) :
    ∀ cnt, reportedTails (reportOfRebuildTargets cnt targets) = [] := by
  induction targets with
  | nil => intro cnt; rfl
  | cons t ts ih =>
    intro cnt
    rw [reportOfRebuildTargets, reportedTails_append, reportedTails_append, ih (cnt + 1)]
    split <;> simp [reportedTails]

/-- C13, as stated, fails for constants whose sum does not fit an `int`.  Both
`MAX_VOLUME_COUNT = 2 ^ 30` and `ACTIVE_STRIPE_TAIL_ARRAYLEN = 2 ^ 31 - 1` are values of an `int`;
for `volumeId = 0` the inner loop visits the indices 0 and `2 ^ 30` and then computes
`idx += MAX_VOLUME_COUNT`, that is `2 ^ 31`, which exceeds `INT_MAX`: with fuel `2 ^ 31`, which
covers both constants, the run overflows, so the function is not guaranteed to visit every index
once and to return 0. -/
theorem getInstantMetaInfo_int_overflow :
    (0 < 2 ^ 30 ∧ 2 ^ 30 ≤ INT_MAX ∧ 2 ^ 31 - 1 ≤ INT_MAX)
    ∧ activeStripeTailRow (2 ^ 30) (2 ^ 31 - 1) 2147483648 0 = Run.intOverflow
    ∧ Allocator.GetInstantMetaInfo (2 ^ 30) (2 ^ 31 - 1) sampleMetaInfoSource sampleAllocator
        2147483648 "info" = Run.intOverflow := by
  decide

/-- C13, amended.  `GetInstantMetaInfo` reports every active-stripe-tail entry exactly once
when the constants fit: for every `MAX_VOLUME_COUNT > 0` that is a value of an `int` and every
`ACTIVE_STRIPE_TAIL_ARRAYLEN` with `ACTIVE_STRIPE_TAIL_ARRAYLEN + MAX_VOLUME_COUNT ≤ 2 ^ 31`, the
nested loop (`volumeId` from 0 to `MAX_VOLUME_COUNT - 1`, `idx` from `volumeId` in steps of
`MAX_VOLUME_COUNT` while below `ACTIVE_STRIPE_TAIL_ARRAYLEN`) ends without overflow, as soon as
the fuel covers both constants, and the function returns 0; every index below
`ACTIVE_STRIPE_TAIL_ARRAYLEN` is visited exactly once and no other index is visited; and the
active-stripe-tail entries of the report are, in the order of the visits, the visited indices
with the stripe id and the offset of the tail found at each. -/
theorem getInstantMetaInfo_visits_once {W : Type}
    (MAX_VOLUME_COUNT ACTIVE_STRIPE_TAIL_ARRAYLEN : Nat) (S : MetaInfoSource) (a : Allocator W)
    (fuel : Nat) (fname : String) (hmax : 0 < MAX_VOLUME_COUNT)
    (hint : MAX_VOLUME_COUNT < 2 ^ 31)
    (hfit : ACTIVE_STRIPE_TAIL_ARRAYLEN + MAX_VOLUME_COUNT ≤ 2 ^ 31)
    (hfuel : ACTIVE_STRIPE_TAIL_ARRAYLEN ≤ fuel) (hfuel' : MAX_VOLUME_COUNT ≤ fuel) :
    ∃ r, Allocator.GetInstantMetaInfo MAX_VOLUME_COUNT ACTIVE_STRIPE_TAIL_ARRAYLEN S a fuel fname
        = Run.done r
      ∧ r.ret = 0
      ∧ (∀ i, r.visited.count i = if i < ACTIVE_STRIPE_TAIL_ARRAYLEN then 1 else 0)
      ∧ reportedTails r.report
        = r.visited.map (fun idx => (idx, (S.GetActiveStripeTail idx).stripeId,
            (S.GetActiveStripeTail idx).offset)) := by
  have hint' : MAX_VOLUME_COUNT ≤ 2147483647 := by
    norm_num at hint
    omega
  have hfit' : ACTIVE_STRIPE_TAIL_ARRAYLEN + MAX_VOLUME_COUNT ≤ 2147483648 := by
    norm_num at hfit
    exact hfit
  obtain ⟨rows, hrows, hcount⟩ :=
    activeStripeTailRows_count MAX_VOLUME_COUNT ACTIVE_STRIPE_TAIL_ARRAYLEN fuel hmax hint'
      hfit' hfuel fuel 0 (by omega)
  simp only [Allocator.GetInstantMetaInfo, hrows]
  refine ⟨_, rfl, rfl, ?_, ?_⟩
  · intro i
    show (visitedOfRows rows).count i = _
    rw [hcount i, Nat.sub_zero, ← List.range_eq_range',
      residue_count MAX_VOLUME_COUNT ACTIVE_STRIPE_TAIL_ARRAYLEN i hmax]
  · show reportedTails (_ ++ reportOfRows S rows ++ _ ++ reportOfSegments S _ ++ _
        ++ reportOfRebuildTargets 0 _ ++ _) = _
    simp only [reportedTails_append, reportedTails_reportOfRows, reportOfSegments,
      reportedTails_segmentItems, reportedTails_rebuildTargets]
    simp [reportedTails]

/-- Witness for C13 (amended): 2 volumes and 5 tail entries; the indices are visited in the
order 0, 2, 4, 1, 3, the report holds one entry for each in this order, and the function
returns 0. -/
theorem getInstantMetaInfo_visits_once_witness :
    (0 < 2 ∧ 2 < 2 ^ 31 ∧ 5 + 2 ≤ 2 ^ 31 ∧ 5 ≤ 5 ∧ 2 ≤ 5)
    ∧ (∃ r, Allocator.GetInstantMetaInfo 2 5 sampleMetaInfoSource sampleAllocator 5 "info"
          = Run.done r
        ∧ r.ret = 0
        ∧ (∀ i, r.visited.count i = if i < 5 then 1 else 0)
        ∧ reportedTails r.report
          = r.visited.map (fun idx => (idx, (sampleMetaInfoSource.GetActiveStripeTail idx).stripeId,
              (sampleMetaInfoSource.GetActiveStripeTail idx).offset)))
    ∧ Allocator.GetInstantMetaInfo 2 5 sampleMetaInfoSource sampleAllocator 5 "info"
      = Run.done ⟨0, [0, 2, 4, 1, 3],
          [ReportItem.Title "<< WriteBuffers >>", ReportItem.EndLine,
            ReportItem.SetTotal 1 4, ReportItem.EndLine,
            ReportItem.Title "activeStripeTail[] Info", ReportItem.EndLine,
            ReportItem.ActiveStripeTail 0 0 0, ReportItem.ActiveStripeTail 2 2 0,
            ReportItem.ActiveStripeTail 4 4 0, ReportItem.EndLine,
            ReportItem.ActiveStripeTail 1 1 0, ReportItem.ActiveStripeTail 3 3 0,
            ReportItem.EndLine, ReportItem.EndLine,
            ReportItem.Title "<< Segments >>", ReportItem.EndLine,
            ReportItem.SetTotal 1 2, ReportItem.EndLine,
            ReportItem.CurrentSsdLsid 12, ReportItem.EndLine,
            ReportItem.Segment 0 0 3, ReportItem.Segment 1 0 4,
            ReportItem.EndLine, ReportItem.EndLine,
            ReportItem.Title "<< Rebuild >>", ReportItem.EndLine,
            ReportItem.NeedRebuildCont false, ReportItem.EndLine,
            ReportItem.TargetSegmentCount 2, ReportItem.EndLine,
            ReportItem.Title "TargetSegnent ID", ReportItem.EndLine,
            ReportItem.TargetSegment 0, ReportItem.EndLine,
            ReportItem.TargetSegment 1, ReportItem.EndLine,
            ReportItem.EndLine]⟩ :=
  ⟨⟨by decide, by decide, by decide, by decide, by decide⟩,
    getInstantMetaInfo_visits_once 2 5 sampleMetaInfoSource sampleAllocator 5 "info"
      (by decide) (by decide) (by decide) (by decide) (by decide),
    by decide⟩

end pos
